import Mathlib

/-!
Verification of `hw/ip/otbn/util/check_const_time.py`, the OTBN constant-time
checker: `parse_required_constants` (parsing of caller-declared required
constants) and the verdict logic of `main` (filtering the control-dependency
map by the caller's secrets and deriving the pass/fail exit status).

The external decode/graph/taint pipeline (`decode_elf`,
`program_control_graph`, `subroutine_control_graph`, `get_program_iflow`,
`get_subroutine_iflow`) is abstracted: `main` is modelled relative to an
arbitrary oracle producing the control-dependency map, since every claim
below concerns only the code of `check_const_time.py` itself.
-/

set_option autoImplicit false

namespace CheckConstTime

/-- Model of Python `str.split(':')` on the character list: splits at every
colon, keeping empty pieces, so that `"a:b:c"` yields three pieces and `""`
yields one empty piece. -/
def splitColonChars : List Char → List (List Char)
  | [] => [[]]
  | c :: rest =>
    let r := splitColonChars rest
    if c = ':' then [] :: r
    else
      match r with
      | [] => [[c]]
      | h :: t => (c :: h) :: t

/-- Model of Python `token.split(':')` as used by `parse_required_constants`. -/
def pySplitColon (s : String) : List String :=
  (splitColonChars s.data).map (fun l => String.mk l)

/-- Model of Python `str.isnumeric`, restricted to ASCII: true exactly on
non-empty strings of decimal digits. (Python additionally accepts non-ASCII
Unicode numeric code points; the tool's register/value tokens are ASCII,
where the two agree.) -/
def pyIsNumeric (s : String) : Bool :=
  !s.data.isEmpty && s.data.all Char.isDigit

/-- Decimal value of a digit list, helper for the model of Python `int`. -/
def digitsVal (l : List Char) : Nat :=
  l.foldl (fun a c => a * 10 + (c.toNat - 48)) 0

/-- Model of Python `int(str)`, restricted to an optional leading sign
followed by ASCII decimal digits (the only shapes reachable in this tool). -/
def pyInt (s : String) : Int :=
  if s.data.head? = some '-' then -(digitsVal s.data.tail : Int)
  else if s.data.head? = some '+' then (digitsVal s.data.tail : Int)
  else (digitsVal s.data : Int)

/-- `GPR_MAX = (1 << 32) - 1` from check_const_time.py (as a Python int). -/
def GPR_MAX : Int := ((1 <<< 32 : Nat) : Int) - 1

/-- `is_gpr_name` from check_const_time.py:
`name in [f'x{i}' for i in range(32)]`. -/
def is_gpr_name (name : String) : Bool :=
  ((List.range 32).map (fun i => "x" ++ toString i)).contains name

/-- One iteration of the loop body of `parse_required_constants`: split the
token on `:`, require exactly two pieces, require a GPR register name and a
numeric value in `[0, GPR_MAX]`; `ValueError` is modelled as `Except.error`. -/
def parseToken (token : String) : Except String (String × Int) :=
  match pySplitColon token with
  | [reg, value] =>
    if !(is_gpr_name reg) then
      Except.error ("Cannot parse required constant " ++ token ++ ": " ++ reg ++
        " is not a valid GPR name.")
    else if !(pyIsNumeric value) then
      Except.error ("Cannot parse required constant " ++ token ++ ": " ++ value ++
        " is not a recognized numeric value.")
    else
      let v := pyInt value
      if v < 0 ∨ v > GPR_MAX then
        Except.error ("Cannot parse required constant " ++ token ++ ": " ++
          toString v ++ " is out of range [0, GPR_MAX].")
      else
        Except.ok (reg, v)
  | _ =>
    Except.error ("Could not parse required constant " ++ token ++ ". Please " ++
      "provide required constants in the form <reg>:<value>, e.g. x5:3.")

/-- Model of Python dict assignment `out[reg] = value` on an
insertion-ordered association list: overwrites an existing binding in place,
otherwise appends. -/
def dictInsert (k : String) (v : Int) : List (String × Int) → List (String × Int)
  | [] => [(k, v)]
  | (k1, v1) :: rest =>
    if k1 = k then (k, v) :: rest else (k1, v1) :: dictInsert k v rest

/-- Model of Python dict lookup `out[reg]` on the association list. -/
def dictGet (k : String) : List (String × Int) → Option Int
  | [] => none
  | (k1, v1) :: rest => if k = k1 then some v1 else dictGet k rest

/-- The `for token in constants` loop of `parse_required_constants`: the
first failing token raises, otherwise each parsed binding is stored with
`out[reg] = value`. -/
def parseGo : List String → List (String × Int) → Except String (List (String × Int))
  | [], out => Except.ok out
  | token :: rest, out =>
    match parseToken token with
    | Except.error e => Except.error e
    | Except.ok rv => parseGo rest (dictInsert rv.1 rv.2 out)

/-- `parse_required_constants` from check_const_time.py. -/
def parse_required_constants (constants : List String) :
    Except String (List (String × Int)) :=
  parseGo constants []

/-- Whether `parseToken` accepts a token (used to state hypotheses). -/
def tokenOk (t : String) : Bool :=
  match parseToken t with
  | Except.ok _ => true
  | Except.error _ => false

/-- The register a well-formed token names, if any (used to state
hypotheses about duplicate registers). -/
def tokenReg (t : String) : Option String :=
  match parseToken t with
  | Except.ok rv => some rv.1
  | Except.error _ => none

/-- The value carried by the last token in list order that parses and names
`reg` (used to state the duplicate-register behaviour of the parser). -/
def lastValue : List String → String → Option Int
  | [], _ => none
  | token :: rest, reg =>
    match lastValue rest reg with
    | some v => some v
    | none =>
      match parseToken token with
      | Except.ok rv => if rv.1 = reg then some rv.2 else none
      | Except.error _ => none

/-- A control-dependency map: taint label to branch addresses, as an
insertion-ordered association list (Python `Dict[str, Set[int]]`). -/
abbrev CDMap := List (String × List Nat)

/-- Modelled from the spec: `CheckResult` from `shared/check.py` is not under
src/; the spec's reporter "aggregates pass/fail/warning status", so it is
modelled as an accumulator of error and warning messages. -/
structure CheckResult where
  errors : List String
  warnings : List String

/-- The fresh `CheckResult()` that `main` constructs. -/
def CheckResult.empty : CheckResult := ⟨[], []⟩

/-- Modelled from the spec: `CheckResult.err` records an error message. -/
def CheckResult.err (c : CheckResult) (msg : String) : CheckResult :=
  ⟨c.errors ++ [msg], c.warnings⟩

/-- Modelled from the spec: `CheckResult.has_errors`. -/
def CheckResult.has_errors (c : CheckResult) : Bool :=
  !c.errors.isEmpty

/-- Modelled from the spec: `CheckResult.has_warnings`. -/
def CheckResult.has_warnings (c : CheckResult) : Bool :=
  !c.warnings.isEmpty

/-- Modelled from the spec: `stringify_control_deps` from
`shared/information_flow_analysis.py` is not under src/; the spec's reporter
renders "a serializable mapping from label → ordered set of addresses", so
each entry is rendered as its label with its branch addresses. -/
def stringify_control_deps (deps : CDMap) : List String :=
  deps.map (fun p => p.1 ++ ": " ++ toString p.2)

/-- The dict comprehension in `main`: with no `--secrets` the whole map is
kept, otherwise only the entries whose label is one of the named secrets. -/
def secret_control_deps (secretArg : Option (List String)) (control_deps : CDMap) :
    CDMap :=
  match secretArg with
  | none => control_deps
  | some secretList => control_deps.filter (fun p => secretList.contains p.1)

/-- The error message `main` emits when secrets may influence control flow. -/
def influenceMsg (deps : CDMap) : String :=
  "The following secrets may influence control flow:\n  " ++
    String.intercalate "\n  " (stringify_control_deps deps)

/-- The verdict portion of `main` (everything after `control_deps` is
computed): build the `CheckResult` and return it with the exit status. -/
def mainVerdict (secretArg : Option (List String)) (control_deps : CDMap) :
    CheckResult × Nat :=
  let scd := secret_control_deps secretArg control_deps
  let out := CheckResult.empty
  let out1 := if scd.length ≠ 0 then out.err (influenceMsg scd) else out
  if out1.has_errors || out1.has_warnings then (out1, 1) else (out1, 0)

/-- The command-line arguments of `main` after argparse. `--constants` and
`--secrets` use `nargs='+'`, so when present the lists are non-empty; that
is carried as a hypothesis where it matters rather than enforced here. -/
structure Args where
  elf : String
  verbose : Bool
  subroutine : Option String
  constants : Option (List String)
  secrets : Option (List String)

/-- `main` from check_const_time.py, with the external decode/graph/analysis
pipeline abstracted as an oracle `analyze` from the arguments and the parsed
required constants to the resulting control-dependency map. Mirrors the
source order: the constants/subroutine validation and
`parse_required_constants` run before the oracle is ever consulted. -/
def mainModel (analyze : Args → List (String × Int) → CDMap) (args : Args) :
    Except String (CheckResult × Nat) :=
  match args.constants with
  | none => Except.ok (mainVerdict args.secrets (analyze args []))
  | some cs =>
    match args.subroutine with
    | none =>
      Except.error ("Cannot require initial constants for a whole program; " ++
        "use --subroutine to analyze a specific subroutine.")
    | some _ =>
      match parse_required_constants cs with
      | Except.error e => Except.error e
      | Except.ok constants =>
        Except.ok (mainVerdict args.secrets (analyze args constants))

/-! ### Helper lemmas -/

/-- A numeric value has no leading sign, so its Python `int` is non-negative. -/
theorem pyInt_nonneg (s : String) (h : pyIsNumeric s = true) : 0 ≤ pyInt s := by
  unfold pyIsNumeric at h
  unfold pyInt
  cases hd : s.data with
  | nil => rw [hd] at h; simp at h
  | cons c rest =>
    rw [hd] at h
    simp only [List.isEmpty_cons, Bool.not_false, Bool.true_and, List.all_cons,
      Bool.and_eq_true] at h
    have hc : c.isDigit = true := h.1
    have h1 : c ≠ '-' := by
      intro he; rw [he] at hc; exact absurd hc (by decide)
    have h2 : c ≠ '+' := by
      intro he; rw [he] at hc; exact absurd hc (by decide)
    simp [h1, h2]

/-- Looking up in a dict after `dictInsert`. -/
theorem dictGet_dictInsert (k1 k : String) (v : Int) (d : List (String × Int)) :
    dictGet k1 (dictInsert k v d) = if k1 = k then some v else dictGet k1 d := by
  induction d with
  | nil => simp [dictInsert, dictGet]
  | cons p rest ih =>
    obtain ⟨k2, v2⟩ := p
    by_cases h2 : k2 = k
    · subst h2
      by_cases h1 : k1 = k2 <;> simp [dictInsert, dictGet, h1]
    · by_cases h1 : k1 = k2
      · subst h1
        simp [dictInsert, dictGet, h2, Ne.symm h2]
      · simp [dictInsert, dictGet, h1, h2, ih]

/-- If every token parses, the loop of `parse_required_constants` succeeds. -/
theorem parseGo_ok_of_all_ok (l : List String) (acc : List (String × Int))
    (h : ∀ t ∈ l, tokenOk t = true) :
    ∃ m, parseGo l acc = Except.ok m := by
  induction l generalizing acc with
  | nil => exact ⟨acc, rfl⟩
  | cons t rest ih =>
    have ht := h t (List.mem_cons_self t rest)
    cases hpt : parseToken t with
    | error e => rw [tokenOk, hpt] at ht; simp at ht
    | ok rv =>
      simp only [parseGo, hpt]
      exact ih (dictInsert rv.1 rv.2 acc) (fun x hx => h x (List.mem_cons_of_mem _ hx))

/-- If some token fails to parse, the loop of `parse_required_constants`
raises. -/
theorem parseGo_error_of_mem (l : List String) (token : String)
    (hmem : token ∈ l) (hbad : tokenOk token = false) (acc : List (String × Int)) :
    ∃ e, parseGo l acc = Except.error e := by
  induction l generalizing acc with
  | nil => cases hmem
  | cons t rest ih =>
    cases hpt : parseToken t with
    | error e => exact ⟨e, by simp [parseGo, hpt]⟩
    | ok rv =>
      have hmem1 : token ∈ rest := by
        rcases List.mem_cons.mp hmem with rfl | hr
        · rw [tokenOk, hpt] at hbad; simp at hbad
        · exact hr
      simp only [parseGo, hpt]
      exact ih hmem1 _

/-- The binding a successful run of the loop leaves for `reg`: the value of
the last accepted token naming `reg`, else whatever the accumulator held. -/
theorem parseGo_dictGet (l : List String) (acc m : List (String × Int))
    (reg : String) (h : parseGo l acc = Except.ok m) :
    dictGet reg m =
      match lastValue l reg with
      | some v => some v
      | none => dictGet reg acc := by
  induction l generalizing acc with
  | nil =>
    simp only [parseGo] at h
    cases h
    simp [lastValue]
  | cons t rest ih =>
    cases hpt : parseToken t with
    | error e => simp [parseGo, hpt] at h
    | ok rv =>
      simp only [parseGo, hpt] at h
      have hrec := ih (dictInsert rv.1 rv.2 acc) h
      rw [hrec]
      cases hlv : lastValue rest reg with
      | some v1 => simp [lastValue, hlv]
      | none =>
        simp only [lastValue, hlv, hpt]
        rw [dictGet_dictInsert]
        by_cases hr : rv.1 = reg
        · simp [hr]
        · have hr2 : ¬ reg = rv.1 := fun he => hr (Eq.symm he)
          simp [hr, hr2]

/-! ### Claim theorems -/

/-- C1: for every control-dependency map and every (possibly absent) secret
list, the run fails exactly when the filtered secret control-dependency set
is non-empty: `main` records the message listing each offending secret with
its branch addresses and returns exit status 1; when the filtered set is
empty it records no error and returns exit status 0 (pass). -/
theorem C1_verdict_iff_filtered_nonempty (secretArg : Option (List String))
    (control_deps : CDMap) :
    (mainVerdict secretArg control_deps).2
        = (if secret_control_deps secretArg control_deps = [] then 0 else 1)
    ∧ (mainVerdict secretArg control_deps).1.errors
        = (if secret_control_deps secretArg control_deps = [] then []
           else [influenceMsg (secret_control_deps secretArg control_deps)]) := by
  unfold mainVerdict
  cases hscd : secret_control_deps secretArg control_deps with
  | nil =>
    simp [CheckResult.empty, CheckResult.err, CheckResult.has_errors,
      CheckResult.has_warnings]
  | cons p rest =>
    simp [CheckResult.empty, CheckResult.err, CheckResult.has_errors,
      CheckResult.has_warnings]

/-- C2: with no `--secrets` argument the verdict set is the entire
control-dependency map, every entry kept unchanged. -/
theorem C2_no_secrets_keeps_whole_map (control_deps : CDMap) :
    secret_control_deps none control_deps = control_deps := rfl

/-- C3: with a supplied secret list, the verdict set contains exactly the
entries of the control-dependency map whose label is one of the named
secrets, each with its branch-address set unchanged; entries for other
labels are excluded. -/
theorem C3_filter_exactly_named_secrets (secretList : List String)
    (control_deps : CDMap) (label : String) (pcs : List Nat) :
    (label, pcs) ∈ secret_control_deps (some secretList) control_deps
      ↔ (label, pcs) ∈ control_deps ∧ label ∈ secretList := by
  simp [secret_control_deps, List.mem_filter, List.contains]

/-- C4: monotonicity in the secret set: for a fixed control-dependency map
and secret lists `s1 ⊆ s2`, every entry of the verdict set computed from
`s1` is also in the verdict set computed from `s2`. -/
theorem C4_filter_monotone_in_secrets (control_deps : CDMap)
    (s1 s2 : List String) (hsub : ∀ a : String, a ∈ s1 → a ∈ s2)
    (entry : String × List Nat)
    (hmem : entry ∈ secret_control_deps (some s1) control_deps) :
    entry ∈ secret_control_deps (some s2) control_deps := by
  simp only [secret_control_deps, List.mem_filter, List.contains,
    List.elem_iff] at hmem ⊢
  exact ⟨hmem.1, hsub entry.1 hmem.2⟩

/-- C4 witness: a concrete map and secret lists `["x5"] ⊆ ["x5", "x6"]`. -/
theorem C4_filter_monotone_in_secrets_witness :
    ("x5", [4]) ∈ secret_control_deps (some ["x5", "x6"]) [("x5", [4])] :=
  C4_filter_monotone_in_secrets [("x5", [4])] ["x5"] ["x5", "x6"]
    (by simp) ("x5", [4]) (by decide)

/-- C5: a `--constants` list supplied without `--subroutine` is rejected with
an error before the ELF is decoded or any analysis runs: the result is an
error and does not depend on the decode/analysis oracle at all, so no
partial result is produced. -/
theorem C5_constants_without_subroutine_rejected
    (f g : Args → List (String × Int) → CDMap) (args : Args)
    (cs : List String) (hc : args.constants = some cs) (hcs : cs ≠ [])
    (hs : args.subroutine = none) :
    (∃ e, mainModel f args = Except.error e)
    ∧ mainModel f args = mainModel g args := by
  unfold mainModel
  rw [hc, hs]
  exact ⟨⟨_, rfl⟩, rfl⟩

/-- C5 witness: concrete arguments with constants but no subroutine, and two
oracles that disagree everywhere. -/
theorem C5_constants_without_subroutine_rejected_witness :
    (∃ e, mainModel (fun _ _ => [])
        ⟨"prog.elf", false, none, some ["x3:5"], none⟩ = Except.error e)
    ∧ mainModel (fun _ _ => []) ⟨"prog.elf", false, none, some ["x3:5"], none⟩
        = mainModel (fun _ _ => [("x1", [0])])
            ⟨"prog.elf", false, none, some ["x3:5"], none⟩ :=
  C5_constants_without_subroutine_rejected _ _ _ ["x3:5"] rfl (by decide) rfl

/-- C6: a token `reg:v` with a GPR name and a digit-string value parses to
`reg ↦ int(v)` exactly when the value is at most `GPR_MAX = 2^32 - 1`; a
larger value raises `ValueError`. -/
theorem C6_decimal_value_range_check (token reg value : String)
    (hsplit : pySplitColon token = [reg, value])
    (hreg : is_gpr_name reg = true) (hval : pyIsNumeric value = true) :
    (parse_required_constants [token] = Except.ok [(reg, pyInt value)]
        ↔ pyInt value ≤ GPR_MAX)
    ∧ (GPR_MAX < pyInt value →
        ∃ e, parse_required_constants [token] = Except.error e)
    ∧ GPR_MAX = 2 ^ 32 - 1 := by
  have h0 : 0 ≤ pyInt value := pyInt_nonneg value hval
  refine ⟨?_, ?_, by decide⟩
  · by_cases hle : pyInt value ≤ GPR_MAX
    · have hcond : ¬ (pyInt value < 0 ∨ pyInt value > GPR_MAX) := by omega
      constructor
      · intro _; exact hle
      · intro _
        simp [parse_required_constants, parseGo, parseToken, hsplit, hreg,
          hval, hcond, dictInsert]
    · have hcond : pyInt value < 0 ∨ pyInt value > GPR_MAX := by omega
      constructor
      · intro hok
        exfalso
        simp [parse_required_constants, parseGo, parseToken, hsplit, hreg,
          hval, hcond] at hok
      · intro hok; exact absurd hok hle
  · intro hgt
    have hcond : pyInt value < 0 ∨ pyInt value > GPR_MAX := Or.inr hgt
    cases hres : parse_required_constants [token] with
    | error e => exact ⟨e, rfl⟩
    | ok m =>
      exfalso
      simp [parse_required_constants, parseGo, parseToken, hsplit, hreg,
        hval, hcond] at hres

/-- C6 witness: the concrete in-range token `x5:3`. -/
theorem C6_decimal_value_range_check_witness :
    (parse_required_constants ["x5:3"] = Except.ok [("x5", pyInt "3")]
        ↔ pyInt "3" ≤ GPR_MAX)
    ∧ (GPR_MAX < pyInt "3" →
        ∃ e, parse_required_constants ["x5:3"] = Except.error e)
    ∧ GPR_MAX = 2 ^ 32 - 1 :=
  C6_decimal_value_range_check "x5:3" "x5" "3" (by decide) (by decide) (by decide)

/-- C7: a token whose register part is not a GPR name `x0`..`x31` makes
`parse_required_constants` raise `ValueError` on any list containing it, so
no mapping is produced for that token. -/
theorem C7_non_gpr_register_rejected (l : List String) (token reg value : String)
    (hmem : token ∈ l) (hsplit : pySplitColon token = [reg, value])
    (hreg : is_gpr_name reg = false) :
    ∃ e, parse_required_constants l = Except.error e := by
  have hbad : tokenOk token = false := by
    unfold tokenOk parseToken
    rw [hsplit]
    simp [hreg]
  exact parseGo_error_of_mem l token hmem hbad []

/-- C7 witness: the wide-register token `w5:3`. -/
theorem C7_non_gpr_register_rejected_witness :
    ∃ e, parse_required_constants ["w5:3"] = Except.error e :=
  C7_non_gpr_register_rejected ["w5:3"] "w5:3" "w5" "3" (by decide) (by decide)
    (by decide)

/-- C8: a token whose value part is not composed solely of digits is
rejected with `ValueError`, even when the denoted value would be in range;
only plain digit strings are accepted as values. -/
theorem C8_non_numeric_value_rejected (token reg value : String)
    (hsplit : pySplitColon token = [reg, value]) (hreg : is_gpr_name reg = true)
    (hval : pyIsNumeric value = false) :
    ∃ e, parse_required_constants [token] = Except.error e := by
  cases hres : parse_required_constants [token] with
  | error e => exact ⟨e, rfl⟩
  | ok m =>
    exfalso
    simp [parse_required_constants, parseGo, parseToken, hsplit, hreg, hval]
      at hres

/-- C8 witness: `x5:0xffffffff` is rejected although the denoted value
`4294967295` lies within `[0, GPR_MAX]`. -/
theorem C8_non_numeric_value_rejected_witness :
    (∃ e, parse_required_constants ["x5:0xffffffff"] = Except.error e)
    ∧ (4294967295 : Int) ≤ GPR_MAX :=
  ⟨C8_non_numeric_value_rejected "x5:0xffffffff" "x5" "0xffffffff" (by decide)
      (by decide) (by decide),
    by decide⟩

/-- C9: once the `isnumeric` check has passed, the parsed integer is
non-negative, so the `value < 0` arm of the range check is unreachable; a
negative literal such as `x5:-1` is rejected by the
not-a-recognized-numeric-value error, never by the range error. -/
theorem C9_negative_range_arm_unreachable :
    (∀ value : String, pyIsNumeric value = true → ¬ (pyInt value < 0))
    ∧ parse_required_constants ["x5:-1"]
        = Except.error ("Cannot parse required constant x5:-1: -1 is not " ++
            "a recognized numeric value.") := by
  constructor
  · intro value hv
    have h0 := pyInt_nonneg value hv
    omega
  · rfl

/-- C9 witness: the unreachability fact at the concrete value `7`. -/
theorem C9_negative_range_arm_unreachable_witness : ¬ (pyInt "7" < 0) :=
  C9_negative_range_arm_unreachable.1 "7" (by decide)

/-- C10: a constants list with two or more well-formed tokens naming the
same register is not rejected for the duplicate: the parse succeeds and
binds that register to the value of the last such token in list order. -/
theorem C10_duplicate_register_last_wins (l : List String) (reg : String)
    (v : Int) (hok : ∀ t ∈ l, tokenOk t = true)
    (hdup : 2 ≤ l.countP (fun t => tokenReg t == some reg))
    (hlast : lastValue l reg = some v) :
    ∃ m, parse_required_constants l = Except.ok m ∧ dictGet reg m = some v := by
  obtain ⟨m, hm⟩ := parseGo_ok_of_all_ok l [] hok
  refine ⟨m, hm, ?_⟩
  have hres := parseGo_dictGet l [] m reg hm
  rw [hlast] at hres
  exact hres

/-- C10 witness: `["x2:7", "x2:9"]` parses and binds `x2` to `9`. -/
theorem C10_duplicate_register_last_wins_witness :
    ∃ m, parse_required_constants ["x2:7", "x2:9"] = Except.ok m
      ∧ dictGet "x2" m = some 9 :=
  C10_duplicate_register_last_wins ["x2:7", "x2:9"] "x2" 9 (by decide)
    (by decide) (by decide)

end CheckConstTime
